import Mathlib

/-!
Verification development for the ETL_PIPELINE repository
(scripts/transform.py, scripts/validate.py, scripts/etl_analysis.py).

The scripts are shallowly embedded: dataframe cells become an inductive
`Cell` type (missing / numeric / string), dataframes become lists of rows,
and each pandas operation used by the scripts is translated to an
executable Lean function with the same semantics on those values.
Machine floats are modelled by rationals (the scripts only add, divide
and compare, never rely on rounding).
-/

namespace ETL

/-- Cell values as they occur in a pandas dataframe read from a CSV or
built from store records: missing (NaN/None), numeric, or string. -/
inductive Cell where
  | null : Cell
  | num : ℚ → Cell
  | str : String → Cell
deriving DecidableEq, Repr

/-- Integer part of a rational, truncated toward zero — Python's `int()`
applied to a float value (`Int.tdiv` truncates toward zero). -/
def pyInt (q : ℚ) : ℤ := q.num.tdiv (q.den : ℤ)

/-- ASCII white space, as `str.strip` removes it. -/
def isSpace (c : Char) : Bool :=
  c = ' ' || c = '\t' || c = '\n' || c = '\r'

/-- Drop white space from both ends of a character list. -/
def trimChars (l : List Char) : List Char :=
  ((l.dropWhile isSpace).reverse.dropWhile isSpace).reverse

/-- Python `str.strip()`. -/
def stripStr (s : String) : String := String.mk (trimChars s.data)

/-- ASCII lower-casing of one character — `str.lower()` on the ASCII
column names and labels this dataset carries. -/
def lowerChar (c : Char) : Char :=
  if 'A' ≤ c ∧ c ≤ 'Z' then Char.ofNat (c.toNat + 32) else c

/-- Python `str.lower()`. -/
def lowerStr (s : String) : String := String.mk (s.data.map lowerChar)

/-- Numeric value of a digit sequence, most significant digit first. -/
def digitsVal (l : List Char) : ℕ :=
  l.foldl (fun a c => 10 * a + (c.toNat - 48)) 0

/-- Split a character list at every dot, like `"x.y".split(".")`. -/
def splitDot : List Char → List (List Char)
  | [] => [[]]
  | c :: rest =>
      if c = '.' then [] :: splitDot rest
      else
        match splitDot rest with
        | w :: ws => (c :: w) :: ws
        | [] => [[c]]

/-- Parse a decimal-literal string to a rational (optional sign, digits,
optional fractional part); `none` when parsing fails.  Models what
`pd.to_numeric(..., errors='coerce')` does to a single string value. -/
def parseRat (s : String) : Option ℚ :=
  let t := trimChars s.data
  let p : Bool × List Char :=
    match t with
    | '-' :: rest => (true, rest)
    | '+' :: rest => (false, rest)
    | _ => (false, t)
  let sign : ℤ := if p.1 then -1 else 1
  match splitDot p.2 with
  | [w] =>
      if !w.isEmpty && w.all Char.isDigit then
        some (Rat.divInt (sign * (digitsVal w : ℤ)) 1)
      else none
  | [w, f] =>
      if (!w.isEmpty || !f.isEmpty) && w.all Char.isDigit && f.all Char.isDigit then
        some (Rat.divInt (sign * (digitsVal (w ++ f) : ℤ)) ((10 : ℤ) ^ f.length))
      else none
  | _ => none

/-- `pd.to_numeric(value, errors='coerce')` on one cell: numbers pass
through, strings are parsed, anything else becomes missing. -/
def toNumeric : Cell → Option ℚ
  | Cell.null => none
  | Cell.num q => some q
  | Cell.str s => parseRat s

/-!  ## Transform Stage — scripts/transform.py

A raw row of the customer CSV.  `transform_data` reads `tenure`,
`MonthlyCharges`, `TotalCharges`, `InternetService`, `MultipleLines`,
`Contract`; `customerID` and `gender` are dropped; the churn label rides
along untouched.  `tenure` and `MonthlyCharges` are numeric CSV columns
(blank cells read as missing); `TotalCharges` may contain arbitrary text,
so it is kept as a `Cell` and coerced by the stage itself. -/

structure RawRow where
  customerID : Option String
  gender : Option String
  tenure : Option ℚ
  MonthlyCharges : Option ℚ
  TotalCharges : Cell
  InternetService : Option String
  MultipleLines : Option String
  Contract : Option String
  Churn : Option String
deriving DecidableEq, Repr

/-- A staged row after `transform_data`: lower-cased column names,
identifier and demographic columns dropped, derived features added. -/
structure StagedRow where
  tenure : Option ℚ
  monthlycharges : Option ℚ
  totalcharges : Option ℚ
  internetservice : Option String
  multiplelines : Option String
  contract : Option String
  churn : Option String
  tenure_group : Option String
  monthly_charge_segment : Option String
  has_internet_service : Option ℕ
  is_multi_line_user : Option ℕ
  contract_type_code : Option ℕ
deriving DecidableEq, Repr

/-- Bin membership for `pd.cut`: `lo`/`hi` are consecutive bin edges,
`none` standing for an infinite edge (`float('inf')` in the source);
`right = true` gives `(lo, hi]`, `right = false` gives `[lo, hi)`. -/
def inBin (right : Bool) (lo hi : Option ℚ) (x : ℚ) : Bool :=
  (match lo with
   | some b => if right then decide (b < x) else decide (b ≤ x)
   | none => true)
  && (match hi with
      | some b => if right then decide (x ≤ b) else decide (x < b)
      | none => true)

/-- `pd.cut(x, bins, labels, right)` on one value: walk the consecutive
edge pairs, return the label of the bin containing `x`, missing if `x`
falls outside every bin. -/
def pdCut (right : Bool) : List (Option ℚ) → List String → ℚ → Option String
  | lo :: hi :: es, lab :: labs, x =>
      if inBin right lo hi x then some lab else pdCut right (hi :: es) labs x
  | _, _, _ => none

/-- Tenure bin edges from the source: `bins=[0,13,37,61,float('inf')]`. -/
def tenureBins : List (Option ℚ) := [some 0, some 13, some 37, some 61, none]

/-- Tenure bucket labels from the source. -/
def tenureLabels : List String := ["New", "Regular", "Loyal", "Champion"]

/-- `df['tenure_group'] = pd.cut(df['tenure'], bins, labels, right=False)`. -/
def tenure_group (t : Option ℚ) : Option String :=
  t.bind (pdCut false tenureBins tenureLabels)

/-- Monthly-charge bin edges from the source: `bins=[0,30,70,float('inf')]`. -/
def chargeBins : List (Option ℚ) := [some 0, some 30, some 70, none]

/-- Monthly-charge segment labels from the source. -/
def chargeLabels : List String := ["Low", "Medium", "High"]

/-- `df['monthly_charge_segment'] = pd.cut(df['MonthlyCharges'], bins, labels, right=True)`. -/
def monthly_charge_segment (m : Option ℚ) : Option String :=
  m.bind (pdCut true chargeBins chargeLabels)

/-- The `InternetService` dictionary of `.map`: DSL/Fiber optic → 1, No → 0. -/
def internetMap (s : String) : Option ℕ :=
  if s = "DSL" then some 1
  else if s = "Fiber optic" then some 1
  else if s = "No" then some 0
  else none

/-- `df['has_internet_service'] = df['InternetService'].map({...})`;
`.map` sends any key absent from the dictionary (and missing) to missing. -/
def has_internet_service (c : Option String) : Option ℕ := c.bind internetMap

/-- The `MultipleLines` dictionary of `.map`. -/
def multiLineMap (s : String) : Option ℕ :=
  if s = "Yes" then some 1
  else if s = "No" then some 0
  else if s = "No phone service" then some 0
  else none

/-- `df['is_multi_line_user'] = df['MultipleLines'].map({...})`. -/
def is_multi_line_user (c : Option String) : Option ℕ := c.bind multiLineMap

/-- The `Contract` dictionary of `.map`: Month-to-month → 0, One year → 1,
Two year → 2. -/
def contractMap (s : String) : Option ℕ :=
  if s = "Month-to-month" then some 0
  else if s = "One year" then some 1
  else if s = "Two year" then some 2
  else none

/-- `df['contract_type_code'] = df['Contract'].map({...})`; any other
value (missing included) maps to missing. -/
def contract_type_code (c : Option String) : Option ℕ := c.bind contractMap

/-- Mean of the `TotalCharges` column after numeric coercion —
`df['TotalCharges'].mean()` skips missing values, so the mean ranges over
the successfully parsed values only; it is missing (NaN) when no value
parsed. -/
def meanTotal (rows : List RawRow) : Option ℚ :=
  let vals := rows.filterMap (fun r => toNumeric r.TotalCharges)
  if vals.length = 0 then none else some (vals.sum / (vals.length : ℚ))

/-- `fillna` on one cell with an optional fill value: a present value is
kept; a missing one becomes the fill value (filling with NaN — `none` —
leaves it missing). -/
def fillWith (m : Option ℚ) : Option ℚ → Option ℚ
  | some q => some q
  | none => m

/-- `transform_data` of scripts/transform.py on the parsed raw CSV:
coerce `TotalCharges` to numeric and mean-impute it (mean computed before
imputation), derive the two `pd.cut` buckets and the three `.map`
encodings, drop `customerID` and `gender`, lower-case the column names.
The commented-out `dropna` of the source is absent, so this is a pure
per-row map. -/
def transform_data (rows : List RawRow) : List StagedRow :=
  let m := meanTotal rows
  rows.map (fun r =>
    { tenure := r.tenure
      monthlycharges := r.MonthlyCharges
      totalcharges := fillWith m (toNumeric r.TotalCharges)
      internetservice := r.InternetService
      multiplelines := r.MultipleLines
      contract := r.Contract
      churn := r.Churn
      tenure_group := tenure_group r.tenure
      monthly_charge_segment := monthly_charge_segment r.MonthlyCharges
      has_internet_service := has_internet_service r.InternetService
      is_multi_line_user := is_multi_line_user r.MultipleLines
      contract_type_code := contract_type_code r.Contract })

/-!  ## Remote-store response extraction — `_extract_data_from_response`
(identical function in scripts/etl_analysis.py and scripts/validate.py)

Python values reachable in a store response are modelled by `PyVal`:
None, numbers, strings, lists (tuples behave identically in the
extractor), dicts, and client objects.  A client object carries its
attribute dictionary (for `getattr(res, "data", None)`) and the result
of calling `res.json()` — `none` when there is no callable `json`
attribute or the call raises (the source swallows that exception). -/

inductive PyVal where
  | pyNone : PyVal
  | num : ℚ → PyVal
  | str : String → PyVal
  | list : List PyVal → PyVal
  | dict : List (String × PyVal) → PyVal
  | obj : List (String × PyVal) → Option PyVal → PyVal
deriving Repr

/-- Dictionary/attribute lookup by key, first binding wins. -/
def lookupKey (k : String) : List (String × PyVal) → Option PyVal
  | [] => none
  | kv :: rest => if kv.1 = k then some kv.2 else lookupKey k rest

/-- `isinstance(v, dict)`. -/
def isDict : PyVal → Bool
  | PyVal.dict _ => true
  | _ => false

/-- `isinstance(item, list) and all(isinstance(x, dict) for x in item)` —
note `all` of an empty list is `True`, as in Python. -/
def isListOfDicts : PyVal → Bool
  | PyVal.list xs => xs.all isDict
  | _ => false

/-- `getattr(res, "data", None)`: only client objects have attributes. -/
def getattrData : PyVal → Option PyVal
  | PyVal.obj attrs _ => lookupKey "data" attrs
  | _ => none

/-- `res.json()` when `res` has a callable `json` attribute and the call
returns without raising. -/
def jsonResult : PyVal → Option PyVal
  | PyVal.obj _ j => j
  | _ => none

/-- `_extract_data_from_response` of scripts/etl_analysis.py and
scripts/validate.py (the two copies are textually identical): try, in
order, a `data` attribute holding a list; a dict whose `"data"` is a
list; for a list/tuple, the first element that is a list of dicts, else
the whole sequence when its first element is a dict; a `json()` result
that is a dict whose `"data"` is a list; otherwise the empty list. -/
def extractData (res : PyVal) : List PyVal :=
  match getattrData res with
  | some (PyVal.list xs) => xs
  | _ =>
    match res with
    | PyVal.dict kvs =>
        match lookupKey "data" kvs with
        | some (PyVal.list xs) => xs
        | _ => []
    | PyVal.list xs =>
        match xs.find? isListOfDicts with
        | some (PyVal.list ys) => ys
        | _ =>
          match xs with
          | x :: _ => if isDict x then xs else []
          | [] => []
    | _ =>
        match jsonResult res with
        | some (PyVal.dict kvs) =>
            match lookupKey "data" kvs with
            | some (PyVal.list xs) => xs
            | _ => []
        | _ => []

/-- Modelled from the spec (claim C9's own wording, for the refinement
comparison): the response shapes the claim recognizes — an object with a
data-list attribute, a dict with a data list, a list/tuple containing a
list of dicts or consisting entirely of dicts, or an object whose
`json()` yields a dict with a data list. -/
def claimRecognized : PyVal → Bool
  | PyVal.obj attrs j =>
      (match lookupKey "data" attrs with
       | some (PyVal.list _) => true
       | _ => false)
      || (match j with
          | some (PyVal.dict kvs) =>
              match lookupKey "data" kvs with
              | some (PyVal.list _) => true
              | _ => false
          | _ => false)
  | PyVal.dict kvs =>
      match lookupKey "data" kvs with
      | some (PyVal.list _) => true
      | _ => false
  | PyVal.list xs => xs.any isListOfDicts || (!xs.isEmpty && xs.all isDict)
  | _ => false

/-- The response shapes the implementation actually maps to a non-empty
extraction rule: `claimRecognized` plus a non-empty list/tuple whose
first element is a dict (returned whole). -/
def implRecognized : PyVal → Bool
  | PyVal.list xs =>
      xs.any isListOfDicts
        || (match xs with
            | x :: _ => isDict x
            | [] => false)
  | v => claimRecognized v

/-!  ## Analysis Stage — scripts/etl_analysis.py

A dataframe with arbitrary column names: `cols` names the columns and
each row is the list of its cells, aligned with `cols`.  `analyze_and_save`
receives the frame that `fetch_table` builds from the store records
(numeric billing columns already coerced). -/

structure DFrame where
  cols : List String
  rows : List (List Cell)
deriving DecidableEq, Repr

/-- `_find_col`: case-insensitive resolution of the first candidate
spelling that matches a column; the source's lower-case dictionary keeps
the last column for a duplicated lower-case name. -/
def find_col (df : DFrame) (cands : List String) : Option String :=
  cands.findSome? (fun cand =>
    (df.cols.filter (fun c => lowerStr c = lowerStr cand)).getLast?)

/-- The cells of column `c`, in row order (missing for a short row). -/
def getColumn (df : DFrame) (c : String) : List Cell :=
  match df.cols.findIdx? (fun x => x = c) with
  | some i => df.rows.map (fun r => r.getD i Cell.null)
  | none => []

/-- `str(value).strip().lower()` for a cell, as the churn normalization
applies it; integer-typed store values print without a decimal point. -/
def pyStrNorm : Cell → String
  | Cell.null => "nan"
  | Cell.num q => if q.den = 1 then lowerStr (stripStr (toString q.num)) else lowerStr (stripStr (toString q))
  | Cell.str s => lowerStr (stripStr s)

/-- The accepted truthy churn spellings: `{"yes", "true", "1", "y"}`. -/
def truthy (c : Cell) : Bool :=
  let s := pyStrNorm c
  s = "yes" || s = "true" || s = "1" || s = "y"

/-- `fillna("MISSING")` on one cell. -/
def fillMissing : Cell → Cell
  | Cell.null => Cell.str "MISSING"
  | c => c

/-- Rows of `(tenure group, churn flag)` feeding the crosstab. -/
def churnTenurePairs (df : DFrame) (cc tg : String) : List (Cell × Bool) :=
  ((getColumn df tg).zip ((getColumn df cc).map truthy)).map
    (fun p => (fillMissing p.1, p.2))

/-- Number of pairs in group `k`. -/
def countKey (ps : List (Cell × Bool)) (k : Cell) : ℕ :=
  (ps.filter (fun p => p.1 = k)).length

/-- Number of pairs in group `k` carrying churn flag `b`. -/
def countKeyFlag (ps : List (Cell × Bool)) (k : Cell) (b : Bool) : ℕ :=
  (ps.filter (fun p => p.1 = k && p.2 = b)).length

/-- Accumulator pass of `uniqueFirst`: keep a cell the first time it is
seen, in input order. -/
def uniqueFirstAux : List Cell → List Cell → List Cell
  | _, [] => []
  | seen, c :: rest =>
      if c ∈ seen then uniqueFirstAux seen rest
      else c :: uniqueFirstAux (c :: seen) rest

/-- `unique` preserving first occurrence, as pandas does. -/
def uniqueFirst (l : List Cell) : List Cell := uniqueFirstAux [] l

/-- The distinct group keys of the crosstab index (the claims are about
membership in the pivot, so the index sort order is immaterial here). -/
def pivotGroups (ps : List (Cell × Bool)) : List Cell :=
  uniqueFirst (ps.map Prod.fst)

/-- The churn-vs-tenure pivot with `normalize='index'`, columns already
renamed and scaled: one row `(group, no_churn_pct, churn_pct)` per group. -/
def churnVsTenure (ps : List (Cell × Bool)) : List (Cell × ℚ × ℚ) :=
  (pivotGroups ps).map (fun k =>
    let n := countKey ps k
    (k, 100 * (countKeyFlag ps k false : ℚ) / (n : ℚ),
        100 * (countKeyFlag ps k true : ℚ) / (n : ℚ)))

/-- The churn-percentage KPI: missing when no churn column resolves,
else the truthy fraction of all rows as a percentage. -/
def churnPct (df : DFrame) : Option ℚ :=
  match find_col df ["churn"] with
  | some c => some (((getColumn df c).filter truthy).length / (df.rows.length : ℚ) * 100)
  | none => none

/-- The pivot block of `analyze_and_save` (source lines 173-184), run
before the summary is saved: when both the churn and tenure-group
columns resolve, `pd.crosstab` only has both flag columns when both flag
values occur; otherwise renaming leaves one of `no_churn_pct` /
`churn_pct` absent and line 182/183 raises a `KeyError`. -/
def pivotOf (df : DFrame) : Except String (List (Cell × ℚ × ℚ)) :=
  match find_col df ["churn"], find_col df ["tenure_group", "tenuregroup"] with
  | some cc, some tg =>
      let ps := churnTenurePairs df cc tg
      if ps.any (fun p => p.2) && ps.any (fun p => !p.2) then
        Except.ok (churnVsTenure ps)
      else Except.error "KeyError"
  | _, _ => Except.ok []

/-- What `analyze_and_save` leaves behind: the CSV artifacts written (in
write order; the optional PNG renderings are presentation side-effects
out of the spec's scope), the summary row when it was saved, and the
pivot rows. -/
structure AnalysisOutput where
  artifacts : List String
  summary : Option (Option ℚ × ℕ)
  churn_vs_tenure : List (Cell × ℚ × ℚ)
deriving DecidableEq, Repr

/-- The artifact names written for a non-empty frame, in source order:
the summary always, the auxiliary CSVs only when their dataframes are
non-empty — i.e. when their columns resolved. -/
def artifactsOf (df : DFrame) (pv : List (Cell × ℚ × ℚ)) : List String :=
  ["analysis_summary.csv"]
    ++ (if (find_col df ["monthlycharges", "monthly_charges", "monthlycharge", "monthly_charge"]).isSome
          && (find_col df ["contract", "contract_type", "contract_type_code"]).isSome
        then ["avg_monthly_by_contract.csv"] else [])
    ++ (if (find_col df ["tenure_group", "tenuregroup"]).isSome
        then ["tenure_group_counts.csv"] else [])
    ++ (if (find_col df ["internetservice", "internet_service"]).isSome
        then ["internet_service_distribution.csv"] else [])
    ++ (if pv.isEmpty then [] else ["churn_vs_tenure_pivot.csv"])

/-- `analyze_and_save` of scripts/etl_analysis.py: an empty frame makes
the function print and return before anything is written; otherwise the
KPIs and the pivot are computed (the pivot may raise, see `pivotOf`),
then the summary CSV is written first and the auxiliary CSVs after. -/
def analyzeAndSave (df : DFrame) : Except String AnalysisOutput :=
  if df.rows.isEmpty || df.cols.isEmpty then
    Except.ok { artifacts := [], summary := none, churn_vs_tenure := [] }
  else
    match pivotOf df with
    | Except.error e => Except.error e
    | Except.ok pv =>
        Except.ok
          { artifacts := artifactsOf df pv
            summary := some (churnPct df, df.rows.length)
            churn_vs_tenure := pv }

/-!  ## Validation Stage — scripts/validate.py

`validate` reads the staged CSV (modelled as `Option DFrame`, `none` when
the file is absent) and the remote store (`Option PyVal`: the raw client
response, `none` when reaching the store raised — that exception is
caught and degrades check 4).  Check 6 can genuinely raise: `int(c)` on
a non-integer string, or `sorted` on a mixed-type code list, so the
whole run is an `Except`. -/

/-- Column access by exact name, `c in df.columns` (case sensitive,
unlike the Analysis Stage's fuzzy resolution). -/
def getColOpt (df : DFrame) (c : String) : Option (List Cell) :=
  if df.cols.contains c then some (getColumn df c) else none

/-- Number of missing cells of a column — `df[col].isna().sum()`. -/
def countNulls (col : List Cell) : ℕ :=
  (col.filter (fun c => c = Cell.null)).length

/-- `dropna()` on a column. -/
def dropNA (col : List Cell) : List Cell :=
  col.filter (fun c => c ≠ Cell.null)

/-- Ordering Python's `sorted` applies within one value type; cells of
distinct types never reach it (`sorted` raises on them first). -/
def cellLe : Cell → Cell → Bool
  | Cell.num a, Cell.num b => decide (a ≤ b)
  | Cell.str a, Cell.str b => !decide (b < a)
  | _, _ => false

/-- Insertion step of the comparison sort modelling `sorted`. -/
def insertSorted (c : Cell) : List Cell → List Cell
  | [] => [c]
  | d :: rest => if cellLe c d then c :: d :: rest else d :: insertSorted c rest

/-- Comparison sort modelling Python's `sorted` on a same-type list. -/
def sortCells : List Cell → List Cell
  | [] => []
  | c :: rest => insertSorted c (sortCells rest)

/-- A cell `sorted`/`int()` can digest together with numbers: numeric or
missing (missing is removed by `dropna` before either runs). -/
def numOrNull : Cell → Bool
  | Cell.str _ => false
  | _ => true

/-- True when the list mixes numeric and string cells — Python 3's
`sorted` raises `TypeError` on such a list. -/
def mixedTypes (l : List Cell) : Bool :=
  (l.any (fun c => !numOrNull c)) && (l.any (fun c => match c with | Cell.str _ => false | Cell.null => false | _ => true))

/-- Python `int()` on a code cell: floats truncate toward zero, strings
must be integer literals (sign and digits) or `int` raises `ValueError`. -/
def pyIntOfCell : Cell → Except String ℤ
  | Cell.num q => Except.ok (pyInt q)
  | Cell.str s =>
      let t := trimChars s.data
      let p : Bool × List Char :=
        match t with
        | '-' :: rest => (true, rest)
        | '+' :: rest => (false, rest)
        | _ => (false, t)
      if !p.2.isEmpty && p.2.all Char.isDigit then
        Except.ok (if p.1 then -(digitsVal p.2 : ℤ) else (digitsVal p.2 : ℤ))
      else Except.error "ValueError"
  | Cell.null => Except.error "ValueError"

/-- The list comprehension
`[c for c in unique_codes if int(c) not in allowed]`: evaluated left to
right, keeping codes whose `int` image is outside `{0,1,2}`, propagating
the first `int()` failure. -/
def invalidCodes : List Cell → Except String (List Cell)
  | [] => Except.ok []
  | c :: rest =>
      match pyIntOfCell c with
      | Except.error e => Except.error e
      | Except.ok i =>
          match invalidCodes rest with
          | Except.error e => Except.error e
          | Except.ok tail =>
              if i = 0 ∨ i = 1 ∨ i = 2 then Except.ok tail
              else Except.ok (c :: tail)

/-- Result of check 6 as the summary reports it. -/
inductive ContractCheck where
  | colMissing : ContractCheck
  | result : List Cell → List Cell → ContractCheck
deriving DecidableEq, Repr

/-- Check 6 on the contract-code column:
`sorted(df[...].dropna().unique().tolist())` then the invalid-code
comprehension; `sorted` raises on mixed types, `int` on bad strings. -/
def check6 (col : List Cell) : Except String ContractCheck :=
  let u := sortCells (uniqueFirst (dropNA col))
  if mixedTypes (dropNA col) then Except.error "TypeError"
  else
    match invalidCodes u with
    | Except.error e => Except.error e
    | Except.ok iv => Except.ok (ContractCheck.result u iv)

/-- True when every cell of the contract-code column (if the column is
present at all) is numeric or missing — the staged frames the Transform
Stage actually writes satisfy this. -/
def contractColOk (df : DFrame) : Bool :=
  match getColOpt df "contract_type_code" with
  | none => true
  | some col => col.all numOrNull

/-- Check-5 record per segment column: null count and the distinct
non-null values (first-occurrence order, as `unique().tolist()`). -/
structure SegInfo where
  nulls : ℕ
  unique_values : List Cell
deriving DecidableEq, Repr

/-- The validation summary printed at the end of `validate`. -/
structure VReport where
  staged_rows : ℕ
  unique_rows : ℕ
  missing_checks : List (String × Option ℕ)
  supabase_rows : Option ℕ
  seg_checks : List (String × Option SegInfo)
  contract_check : ContractCheck
deriving DecidableEq, Repr

/-- Outcome of a `validate` run that did not raise: the early return on
a missing staged file, or the full report. -/
inductive VResult where
  | stagedFileMissing : VResult
  | report : VReport → VResult
deriving DecidableEq, Repr

/-- Row-level distinctness for check 3 (`drop_duplicates` over all
columns keeps the first occurrence; only its length is used). -/
def uniqueRowsCount (rows : List (List Cell)) : ℕ :=
  rows.dedup.length

/-- The summary record `validate` assembles for a staged frame, given
the outcome of check 6: checks 2, 3, 5 are pure counts over the staged
frame; check 4 extracts the remote response, a raised fetch (`none`)
degrading it to a skipped count. -/
def buildReport (df : DFrame) (remote : Option PyVal) (cc : ContractCheck) : VReport :=
  { staged_rows := df.rows.length
    unique_rows := uniqueRowsCount df.rows
    missing_checks := ["tenure", "MonthlyCharges", "TotalCharges"].map (fun c =>
      (c, (getColOpt df c).map countNulls))
    supabase_rows := remote.map (fun res => (extractData res).length)
    seg_checks := ["tenure_group", "monthly_charge_segment"].map (fun s =>
      (s, (getColOpt df s).map (fun col =>
        SegInfo.mk (countNulls col) (uniqueFirst (dropNA col)))))
    contract_check := cc }

/-- `validate` of scripts/validate.py.  Check 1 returns early when the
staged file is missing; check 6 may raise (see `check6`), which aborts
the run — nothing else does. -/
def validate (staged : Option DFrame) (remote : Option PyVal) :
    Except String VResult :=
  match staged with
  | none => Except.ok VResult.stagedFileMissing
  | some df =>
      match
        (match getColOpt df "contract_type_code" with
         | none => Except.ok ContractCheck.colMissing
         | some col => check6 col) with
      | Except.error e => Except.error e
      | Except.ok cc => Except.ok (VResult.report (buildReport df remote cc))

/-!  ## Concrete example data used by witnesses and counterexamples -/

/-- A raw row with a fully populated schema and a parametric cell. -/
def rawRowWith (t : Option ℚ) (tc : Cell) : RawRow :=
  { customerID := some "0001-AAAAA"
    gender := some "Female"
    tenure := t
    MonthlyCharges := some 20
    TotalCharges := tc
    InternetService := some "DSL"
    MultipleLines := some "No"
    Contract := some "One year"
    Churn := some "No" }

/-- A raw row whose tenure cell is blank in the CSV. -/
def rawNullTenure : RawRow := rawRowWith none (Cell.str "100")

/-- The spec's TotalCharges scenario: values `["", "50", "70"]`. -/
def scenarioRows : List RawRow :=
  [rawRowWith (some 1) (Cell.str ""),
   rawRowWith (some 2) (Cell.str "50"),
   rawRowWith (some 3) (Cell.str "70")]

/-- An empty store frame, as `fetch_table` yields it for zero rows. -/
def dfEmptyEx : DFrame := { cols := ["churn"], rows := [] }

/-- A two-row store frame with one churned customer and one missing
tenure group. -/
def dfChurnEx : DFrame :=
  { cols := ["churn", "tenure_group"]
    rows := [[Cell.str "yes", Cell.str "New"], [Cell.str "no", Cell.null]] }

/-- The crosstab input pairs `dfChurnEx` yields. -/
def psChurnEx : List (Cell × Bool) :=
  churnTenurePairs dfChurnEx "churn" "tenure_group"

/-- The output `analyze_and_save` produces on `dfChurnEx`, with its
rational entries left as the expressions the stage computes. -/
def outChurnEx : AnalysisOutput :=
  { artifacts := artifactsOf dfChurnEx (churnVsTenure psChurnEx)
    summary := some (churnPct dfChurnEx, 2)
    churn_vs_tenure := churnVsTenure psChurnEx }

/-- A one-row store frame with a churn column only. -/
def dfOneNo : DFrame := { cols := ["churn"], rows := [[Cell.str "no"]] }

/-- The output `analyze_and_save` produces on `dfOneNo`. -/
def outOneNo : AnalysisOutput :=
  { artifacts := artifactsOf dfOneNo []
    summary := some (churnPct dfOneNo, 1)
    churn_vs_tenure := [] }

/-- A staged frame whose contract-code column holds the text "abc". -/
def dfBadCode : DFrame :=
  { cols := ["contract_type_code"], rows := [[Cell.str "abc"]] }

/-- A staged frame with numeric contract codes, one of them out of
domain, and a segment column. -/
def dfCodes : DFrame :=
  { cols := ["contract_type_code", "tenure_group"]
    rows := [[Cell.num 7, Cell.str "New"], [Cell.null, Cell.null], [Cell.num 1, Cell.str "New"]] }

/-!  ## Theorems -/

/-- Full characterization of the tenure bucketing: a 4-way partition at
0, 13, 37, 61, unbounded above, lower bound inclusive and upper bound
exclusive; values below 0 fall outside every bucket. -/
theorem tenure_group_eq (q : ℚ) :
    tenure_group (some q) =
      if 0 ≤ q ∧ q < 13 then some "New"
      else if 13 ≤ q ∧ q < 37 then some "Regular"
      else if 37 ≤ q ∧ q < 61 then some "Loyal"
      else if 61 ≤ q then some "Champion"
      else none := by
  show pdCut false tenureBins tenureLabels q = _
  simp [tenureBins, tenureLabels, pdCut, inBin, decide_eq_true_eq]

/-- Full characterization of the monthly-charge segmentation: a 3-way
partition at 0, 30, 70, unbounded above, lower bound exclusive and upper
bound inclusive; values at or below 0 fall outside every segment. -/
theorem monthly_charge_segment_eq (q : ℚ) :
    monthly_charge_segment (some q) =
      if 0 < q ∧ q ≤ 30 then some "Low"
      else if 30 < q ∧ q ≤ 70 then some "Medium"
      else if 70 < q then some "High"
      else none := by
  show pdCut true chargeBins chargeLabels q = _
  simp [chargeBins, chargeLabels, pdCut, inBin, decide_eq_true_eq]

/-- C5: transform_data buckets tenure with a 4-way partition at 0, 13,
37, 61, unbounded above, lower bound inclusive and upper bound exclusive
(tenure 13 → second bucket, 12.999 → first, 61 → fourth, 0 → first), and
buckets monthly charge with a 3-way partition at 0, 30, 70, unbounded
above, lower bound exclusive and upper bound inclusive (30 → low, 30.01
→ medium, 70 → medium, 70.01 → high) — opposite edge conventions. -/
theorem C5_bucket_boundaries :
    (∀ q : ℚ, tenure_group (some q) =
      if 0 ≤ q ∧ q < 13 then some "New"
      else if 13 ≤ q ∧ q < 37 then some "Regular"
      else if 37 ≤ q ∧ q < 61 then some "Loyal"
      else if 61 ≤ q then some "Champion"
      else none) ∧
    (∀ q : ℚ, monthly_charge_segment (some q) =
      if 0 < q ∧ q ≤ 30 then some "Low"
      else if 30 < q ∧ q ≤ 70 then some "Medium"
      else if 70 < q then some "High"
      else none) ∧
    tenure_group (some 13) = some "Regular" ∧
    tenure_group (some (12999/1000)) = some "New" ∧
    tenure_group (some 61) = some "Champion" ∧
    tenure_group (some 0) = some "New" ∧
    monthly_charge_segment (some 30) = some "Low" ∧
    monthly_charge_segment (some (3001/100)) = some "Medium" ∧
    monthly_charge_segment (some 70) = some "Medium" ∧
    monthly_charge_segment (some (7001/100)) = some "High" :=
  ⟨tenure_group_eq, monthly_charge_segment_eq,
   by rw [tenure_group_eq]; norm_num,
   by rw [tenure_group_eq]; norm_num,
   by rw [tenure_group_eq]; norm_num,
   by rw [tenure_group_eq]; norm_num,
   by rw [monthly_charge_segment_eq]; norm_num,
   by rw [monthly_charge_segment_eq]; norm_num,
   by rw [monthly_charge_segment_eq]; norm_num,
   by rw [monthly_charge_segment_eq]; norm_num⟩

/-- C6: the contract-type field maps Month-to-month → 0, One year → 1,
Two year → 2, and every other value (missing included) to a missing
code, never to a default code such as 0. -/
theorem C6_contract_mapping :
    contract_type_code none = none ∧
    (∀ s : String, contract_type_code (some s) =
      if s = "Month-to-month" then some 0
      else if s = "One year" then some 1
      else if s = "Two year" then some 2
      else none) ∧
    (∀ c : Option String, contract_type_code c = some 0 → c = some "Month-to-month") := by
  refine ⟨rfl, fun s => rfl, fun c h => ?_⟩
  match c with
  | none => exact absurd h (by simp [contract_type_code])
  | some s =>
      simp only [contract_type_code, Option.some_bind, contractMap] at h
      split at h
      · next heq => exact heq ▸ rfl
      · split at h
        · exact absurd (Option.some.inj h) (by decide)
        · split at h
          · exact absurd (Option.some.inj h) (by decide)
          · exact absurd h (by decide)

/-- C6 witness: the mapping evaluated at each dictionary key, a bogus
value, and a concrete inversion of code 0. -/
theorem C6_witness :
    contract_type_code (some "Month-to-month") = some 0 ∧
    contract_type_code (some "One year") = some 1 ∧
    contract_type_code (some "Two year") = some 2 ∧
    contract_type_code (some "Bogus") = none ∧
    some "Month-to-month" = some "Month-to-month" :=
  ⟨by decide, by decide, by decide, by decide,
   C6_contract_mapping.2.2 (some "Month-to-month") (by decide)⟩

/-- C10: transform_data preserves the row count — every raw row yields
exactly one staged row; no row is dropped or added by imputation,
bucketing, mapping, or column dropping. -/
theorem C10_row_count_preserved (rows : List RawRow) :
    (transform_data rows).length = rows.length := by
  simp [transform_data]

/-- C3 counterexample: a raw file whose single row has a blank tenure
cell; the staged output keeps the missing tenure, so not every staged
row has non-null values in all three core numeric columns. -/
theorem C3_counterexample :
    (transform_data [rawNullTenure]).map StagedRow.tenure = [none] := by decide

/-- C3 (amended): after transform_data the TotalCharges column has no
missing values provided at least one raw value parses numerically, while
the tenure and monthly-charge columns are copied through unchanged (so
they are non-null only when the raw file had them non-null). -/
theorem C3_core_numeric_columns (rows : List RawRow)
    (h : ∃ r ∈ rows, (toNumeric r.TotalCharges).isSome = true) :
    (∀ s ∈ transform_data rows, s.totalcharges ≠ none) ∧
    (transform_data rows).map StagedRow.tenure = rows.map RawRow.tenure ∧
    (transform_data rows).map StagedRow.monthlycharges = rows.map RawRow.MonthlyCharges := by
  obtain ⟨r, hr, hsome⟩ := h
  obtain ⟨v, hv⟩ := Option.isSome_iff_exists.mp hsome
  have hvm : v ∈ rows.filterMap (fun r => toNumeric r.TotalCharges) :=
    List.mem_filterMap.mpr ⟨r, hr, hv⟩
  have hlen : (rows.filterMap (fun r => toNumeric r.TotalCharges)).length ≠ 0 :=
    Nat.pos_iff_ne_zero.mp (List.length_pos.mpr (List.ne_nil_of_mem hvm))
  have hmean : ∃ m, meanTotal rows = some m := by
    simp only [meanTotal, hlen, if_false, reduceIte]
    exact ⟨_, rfl⟩
  obtain ⟨m, hm⟩ := hmean
  refine ⟨fun s hs => ?_, ?_, ?_⟩
  · simp only [transform_data, hm, List.mem_map] at hs
    obtain ⟨r0, _, hr0⟩ := hs
    subst hr0
    cases htc : toNumeric r0.TotalCharges <;> simp [fillWith, htc]
  · simp [transform_data, List.map_map]
  · simp [transform_data, List.map_map]

/-- C3 witness: a one-row file whose TotalCharges parses; the staged
TotalCharges is non-null and tenure passes through as the missing value
it was. -/
theorem C3_witness :
    (∀ s ∈ transform_data [rawNullTenure], s.totalcharges ≠ none) ∧
    (transform_data [rawNullTenure]).map StagedRow.tenure = [rawNullTenure].map RawRow.tenure ∧
    (transform_data [rawNullTenure]).map StagedRow.monthlycharges = [rawNullTenure].map RawRow.MonthlyCharges :=
  C3_core_numeric_columns [rawNullTenure]
    ⟨rawNullTenure, by decide, by decide⟩

/-- C4: every TotalCharges value that fails numeric parsing becomes
missing and is then imputed with the mean of the successfully parsed
values (the mean is computed before imputation, so imputed rows do not
influence it); parsed values are left unchanged. -/
theorem C4_mean_imputation (rows : List RawRow) (m : ℚ)
    (h : meanTotal rows = some m) :
    (transform_data rows).map StagedRow.totalcharges
      = rows.map (fun r => some ((toNumeric r.TotalCharges).getD m)) ∧
    m = (rows.filterMap (fun r => toNumeric r.TotalCharges)).sum
        / ((rows.filterMap (fun r => toNumeric r.TotalCharges)).length : ℚ) := by
  constructor
  · simp only [transform_data, h, List.map_map]
    refine List.map_eq_map_iff.mpr (fun r hr => ?_)
    cases htc : toNumeric r.TotalCharges <;>
      simp [fillWith, htc, Function.comp]
  · simp only [meanTotal] at h
    split at h
    · cases h
    · exact (Option.some.inj h).symm

/-- C4 witness: the spec scenario TotalCharges = ["", "50", "70"] — the
mean of the parsed values is 60, the blank is filled with 60, parsed
values stay, and the resulting column has zero nulls. -/
theorem C4_witness :
    meanTotal scenarioRows = some 60 ∧
    (transform_data scenarioRows).map StagedRow.totalcharges
      = [some 60, some 50, some 70] := by
  have e1 : toNumeric (Cell.str "") = none := by decide
  have e2 : toNumeric (Cell.str "50") = some 50 := by decide
  have e3 : toNumeric (Cell.str "70") = some 70 := by decide
  have h : meanTotal scenarioRows = some 60 := by
    simp only [meanTotal, scenarioRows, rawRowWith, List.filterMap_cons,
      List.filterMap_nil, e1, e2, e3]
    norm_num
  refine ⟨h, ?_⟩
  rw [(C4_mean_imputation scenarioRows 60 h).1]
  simp [scenarioRows, rawRowWith, e1, e2, e3]

/-- The two flag counts of a pivot group partition its row count. -/
theorem countKey_partition (ps : List (Cell × Bool)) (k : Cell) :
    countKeyFlag ps k false + countKeyFlag ps k true = countKey ps k := by
  induction ps with
  | nil => rfl
  | cons p rest ih =>
      simp only [countKey, countKeyFlag, List.filter_cons] at ih ⊢
      by_cases hk : p.1 = k
      · cases hb : p.2
        · rw [if_pos (by simp [hk, hb]), if_neg (by simp [hk, hb]),
            if_pos (by simp [hk])]
          simp only [List.length_cons]
          omega
        · rw [if_neg (by simp [hk, hb]), if_pos (by simp [hk, hb]),
            if_pos (by simp [hk])]
          simp only [List.length_cons]
          omega
      · rw [if_neg (by simp [hk]), if_neg (by simp [hk]), if_neg (by simp [hk])]
        omega

/-- Membership in the deduplication accumulator pass. -/
theorem mem_uniqueFirstAux (x : Cell) (l : List Cell) : ∀ seen : List Cell,
    (x ∈ uniqueFirstAux seen l ↔ x ∈ l ∧ x ∉ seen) := by
  induction l with
  | nil => intro seen; simp [uniqueFirstAux]
  | cons c rest ih =>
      intro seen
      by_cases hxc : x = c
      · subst hxc
        by_cases hc : x ∈ seen <;>
          simp [uniqueFirstAux, hc, ih]
      · by_cases hc : c ∈ seen <;>
          simp [uniqueFirstAux, hc, ih, hxc]

/-- `uniqueFirst` keeps exactly the members of its input. -/
theorem mem_uniqueFirst (x : Cell) (l : List Cell) :
    x ∈ uniqueFirst l ↔ x ∈ l := by
  simp [uniqueFirst, mem_uniqueFirstAux]

/-- Every group key of the pivot has at least one input row. -/
theorem countKey_pos_of_mem (ps : List (Cell × Bool)) (k : Cell)
    (h : k ∈ pivotGroups ps) : countKey ps k ≠ 0 := by
  rw [pivotGroups, mem_uniqueFirst, List.mem_map] at h
  obtain ⟨p, hp, hpk⟩ := h
  have : p ∈ ps.filter (fun p => decide (p.1 = k)) :=
    List.mem_filter.mpr ⟨hp, by simp [hpk]⟩
  have hlen := List.length_pos.mpr (List.ne_nil_of_mem this)
  simp only [countKey]
  omega

/-- Every row of the churn-vs-tenure pivot sums to exactly 100. -/
theorem churnVsTenure_row_sum (ps : List (Cell × Bool)) (k : Cell) (a b : ℚ)
    (h : (k, a, b) ∈ churnVsTenure ps) : a + b = 100 := by
  simp only [churnVsTenure, List.mem_map] at h
  obtain ⟨g, hg, heq⟩ := h
  injection heq with h1 h2
  injection h2 with h2a h2b
  subst h1
  subst h2a
  subst h2b
  have hn : ((countKey ps g : ℕ) : ℚ) ≠ 0 :=
    Nat.cast_ne_zero.mpr (countKey_pos_of_mem ps g hg)
  rw [div_add_div_same, ← mul_add, ← Nat.cast_add,
    countKey_partition, mul_div_assoc, div_self hn, mul_one]

/-- C8: in the churn-vs-tenure pivot produced by analyze_and_save, for
every tenure-group bucket present in the output (the "MISSING" bucket
included), the churn-true and churn-false percentages sum to 100 —
exactly, since the model computes in ℚ. -/
theorem C8_pivot_rows_sum_100 (df : DFrame) (out : AnalysisOutput)
    (k : Cell) (a b : ℚ)
    (h : analyzeAndSave df = Except.ok out)
    (hm : (k, a, b) ∈ out.churn_vs_tenure) : a + b = 100 := by
  unfold analyzeAndSave at h
  split at h
  · cases h
    simp at hm
  · revert h
    cases hp : pivotOf df with
    | error e => intro h; cases h
    | ok pv =>
        intro h
        cases h
        simp only at hm
        unfold pivotOf at hp
        split at hp
        · dsimp only at hp
          split at hp
          · cases hp
            exact churnVsTenure_row_sum _ k a b hm
          · cases hp
        · cases hp
          simp at hm

/-- C8 witness: the concrete two-row frame `dfChurnEx` reaches the
theorem's hypotheses and its "New" pivot row carries 0% and 100%. -/
theorem C8_witness :
    analyzeAndSave dfChurnEx = Except.ok outChurnEx ∧
    (Cell.str "New", (0 : ℚ), (100 : ℚ)) ∈ outChurnEx.churn_vs_tenure ∧
    (0 : ℚ) + 100 = 100 := by
  have hps : psChurnEx = [(Cell.str "New", true), (Cell.str "MISSING", false)] := by decide
  have hg : pivotGroups [(Cell.str "New", true), (Cell.str "MISSING", false)]
      = [Cell.str "New", Cell.str "MISSING"] := by decide
  have c1 : countKey [(Cell.str "New", true), (Cell.str "MISSING", false)] (Cell.str "New") = 1 := by decide
  have c2 : countKeyFlag [(Cell.str "New", true), (Cell.str "MISSING", false)] (Cell.str "New") false = 0 := by decide
  have c3 : countKeyFlag [(Cell.str "New", true), (Cell.str "MISSING", false)] (Cell.str "New") true = 1 := by decide
  have hm : (Cell.str "New", (0 : ℚ), (100 : ℚ)) ∈ outChurnEx.churn_vs_tenure := by
    show _ ∈ churnVsTenure psChurnEx
    rw [hps]
    simp only [churnVsTenure, hg, List.map_cons, List.map_nil, c1, c2, c3]
    norm_num
  exact ⟨rfl, hm, C8_pivot_rows_sum_100 dfChurnEx outChurnEx (Cell.str "New") 0 100 rfl hm⟩

/-- C1 counterexample: on the empty store frame, `analyze_and_save`
returns before writing anything — no summary artifact with
`rows_analyzed = 0` exists, contradicting the claimed scenario. -/
theorem C1_counterexample :
    analyzeAndSave dfEmptyEx
      = Except.ok { artifacts := [], summary := none, churn_vs_tenure := [] } := rfl

/-- C1 (amended): on an empty frame analyze_and_save writes no artifact
and raises nothing; on a non-empty frame it raises exactly when the
pivot block does, and whenever it completes, the summary artifact is
written first and carries the churn rate (missing when no churn column
resolves) and the row count. -/
theorem C1_summary_artifact (df : DFrame) :
    ((df.rows.isEmpty || df.cols.isEmpty) = true →
      analyzeAndSave df = Except.ok { artifacts := [], summary := none, churn_vs_tenure := [] }) ∧
    (∀ e, (df.rows.isEmpty || df.cols.isEmpty) = false → pivotOf df = Except.error e →
      analyzeAndSave df = Except.error e) ∧
    (∀ out, analyzeAndSave df = Except.ok out →
      (df.rows.isEmpty || df.cols.isEmpty) = false →
      out.summary = some (churnPct df, df.rows.length) ∧
      out.artifacts.head? = some "analysis_summary.csv") := by
  refine ⟨fun h => ?_, fun e hne he => ?_, fun out h hne => ?_⟩
  · simp [analyzeAndSave, h]
  · simp [analyzeAndSave, hne, he]
  · unfold analyzeAndSave at h
    rw [hne] at h
    simp only [Bool.false_eq_true, if_false] at h
    revert h
    cases hp : pivotOf df with
    | error e => intro h; cases h
    | ok pv =>
        intro h
        cases h
        exact ⟨rfl, by simp [artifactsOf]⟩

/-- C1 witness: the empty frame hits the early return, and a concrete
one-row frame completes with the summary artifact written first. -/
theorem C1_witness :
    analyzeAndSave dfEmptyEx
      = Except.ok { artifacts := [], summary := none, churn_vs_tenure := [] } ∧
    outOneNo.summary = some (churnPct dfOneNo, dfOneNo.rows.length) ∧
    outOneNo.artifacts.head? = some "analysis_summary.csv" :=
  ⟨(C1_summary_artifact dfEmptyEx).1 rfl,
   (C1_summary_artifact dfOneNo).2.2 outOneNo rfl rfl⟩

/-- Insertion keeps exactly the inserted element and the old members. -/
theorem mem_insertSorted (x c : Cell) (l : List Cell) :
    x ∈ insertSorted c l ↔ x = c ∨ x ∈ l := by
  induction l with
  | nil => simp [insertSorted]
  | cons d rest ih =>
      simp only [insertSorted]
      split
      · simp [List.mem_cons]
      · simp only [List.mem_cons, ih]
        tauto

/-- Sorting keeps exactly the members. -/
theorem mem_sortCells (x : Cell) (l : List Cell) :
    x ∈ sortCells l ↔ x ∈ l := by
  induction l with
  | nil => simp [sortCells]
  | cons c rest ih => simp [sortCells, mem_insertSorted, ih]

/-- On a list of purely numeric cells the invalid-code comprehension
never raises and keeps exactly the codes whose `int()` truncation lies
outside `{0, 1, 2}`. -/
theorem invalidCodes_ok (l : List Cell) (h : ∀ c ∈ l, ∃ q : ℚ, c = Cell.num q) :
    ∃ iv, invalidCodes l = Except.ok iv ∧
      (∀ x, x ∈ iv ↔ x ∈ l ∧ ∃ q : ℚ, x = Cell.num q ∧
        pyInt q ≠ 0 ∧ pyInt q ≠ 1 ∧ pyInt q ≠ 2) := by
  induction l with
  | nil => exact ⟨[], rfl, by simp⟩
  | cons c rest ih =>
      obtain ⟨q, rfl⟩ := h c (List.mem_cons_self _ _)
      obtain ⟨iv, hiv, hmem⟩ := ih (fun c hc => h c (List.mem_cons_of_mem _ hc))
      by_cases hq : pyInt q = 0 ∨ pyInt q = 1 ∨ pyInt q = 2
      · refine ⟨iv, ?_, fun x => ?_⟩
        · simp [invalidCodes, pyIntOfCell, hiv, hq]
        · rw [hmem]
          constructor
          · rintro ⟨h1, h2⟩
            exact ⟨List.mem_cons_of_mem _ h1, h2⟩
          · rintro ⟨h1, q2, rfl, h3, h4, h5⟩
            rcases List.mem_cons.mp h1 with heq | h1
            · injection heq with hqq
              subst hqq
              rcases hq with h0 | h0 | h0
              · exact absurd h0 h3
              · exact absurd h0 h4
              · exact absurd h0 h5
            · exact ⟨h1, q2, rfl, h3, h4, h5⟩
      · refine ⟨Cell.num q :: iv, ?_, fun x => ?_⟩
        · simp [invalidCodes, pyIntOfCell, hiv, hq]
        · simp only [List.mem_cons, hmem]
          constructor
          · rintro (rfl | ⟨h1, h2⟩)
            · refine ⟨Or.inl rfl, q, rfl, ?_, ?_, ?_⟩ <;> tauto
            · exact ⟨Or.inr h1, h2⟩
          · rintro ⟨rfl | h1, q2, heq, h3, h4, h5⟩
            · exact Or.inl rfl
            · exact Or.inr ⟨h1, q2, heq, h3, h4, h5⟩

/-- Members of `dropNA` are the non-null members. -/
theorem mem_dropNA (x : Cell) (col : List Cell) :
    x ∈ dropNA col ↔ x ∈ col ∧ x ≠ Cell.null := by
  simp [dropNA]

/-- On a numeric-or-null column, check 6 completes without raising, its
reported unique codes are exactly the distinct non-null cells, and its
invalid list keeps exactly the numeric cells whose `int()` truncation
lies outside `{0, 1, 2}`. -/
theorem check6_numOk (col : List Cell) (h : col.all numOrNull = true) :
    ∃ u iv, check6 col = Except.ok (ContractCheck.result u iv) ∧
      (∀ x, x ∈ u ↔ x ∈ col ∧ x ≠ Cell.null) ∧
      (∀ x, x ∈ iv ↔ x ∈ col ∧ ∃ q : ℚ, x = Cell.num q ∧
        pyInt q ≠ 0 ∧ pyInt q ≠ 1 ∧ pyInt q ≠ 2) := by
  have hall := List.all_eq_true.mp h
  have hnum : ∀ c ∈ sortCells (uniqueFirst (dropNA col)), ∃ q : ℚ, c = Cell.num q := by
    intro c hc
    rw [mem_sortCells, mem_uniqueFirst, mem_dropNA] at hc
    obtain ⟨hc1, hc2⟩ := hc
    have := hall c hc1
    match c, this with
    | Cell.num q, _ => exact ⟨q, rfl⟩
    | Cell.null, _ => exact absurd rfl hc2
  have hmix : mixedTypes (dropNA col) = false := by
    simp only [mixedTypes, Bool.and_eq_false_iff]
    left
    rw [List.any_eq_false]
    intro c hc
    rw [mem_dropNA] at hc
    have := hall c hc.1
    simp [this]
  obtain ⟨iv, hiv, hmem⟩ := invalidCodes_ok _ hnum
  refine ⟨sortCells (uniqueFirst (dropNA col)), iv, ?_, ?_, ?_⟩
  · simp only [check6, hmix, if_false, hiv, Bool.false_eq_true]
  · intro x
    rw [mem_sortCells, mem_uniqueFirst, mem_dropNA]
  · intro x
    rw [hmem, mem_sortCells, mem_uniqueFirst, mem_dropNA]
    constructor
    · rintro ⟨⟨h1, -⟩, h2⟩
      exact ⟨h1, h2⟩
    · rintro ⟨h1, q, rfl, h3⟩
      exact ⟨⟨h1, by simp⟩, q, rfl, h3⟩

/-- C2 counterexample: a staged file whose contract-code column holds
the single value 2.5 — non-null and outside {0,1,2}, yet check 6 lists
no invalid code, because `int(2.5) = 2` passes the membership test. -/
theorem C2_counterexample :
    check6 [Cell.num (mkRat 5 2)]
      = Except.ok (ContractCheck.result [Cell.num (mkRat 5 2)] []) ∧
    Cell.num (mkRat 5 2) ≠ Cell.null ∧
    (mkRat 5 2 : ℚ) ≠ 0 ∧ (mkRat 5 2 : ℚ) ≠ 1 ∧ (mkRat 5 2 : ℚ) ≠ 2 :=
  ⟨rfl, by decide, by decide, by decide, by decide⟩

/-- C2 (amended): on a numeric-or-null contract-code column, check 6
never raises, null codes are never listed, and a code is listed invalid
exactly when its `int()` truncation toward zero is outside {0,1,2} — so
non-integer codes whose truncation lands in {0,1,2} escape the list. -/
theorem C2_invalid_code_list (col : List Cell) (h : col.all numOrNull = true) :
    ∃ u iv, check6 col = Except.ok (ContractCheck.result u iv) ∧
      Cell.null ∉ iv ∧
      (∀ q : ℚ, Cell.num q ∈ iv ↔ Cell.num q ∈ col ∧
        pyInt q ≠ 0 ∧ pyInt q ≠ 1 ∧ pyInt q ≠ 2) := by
  obtain ⟨u, iv, hc, hu, hiv⟩ := check6_numOk col h
  refine ⟨u, iv, hc, ?_, fun q => ?_⟩
  · intro hn
    obtain ⟨-, q, heq, -⟩ := (hiv _).mp hn
    cases heq
  · rw [hiv]
    constructor
    · rintro ⟨h1, q2, heq, h3, h4, h5⟩
      injection heq with hqq
      subst hqq
      exact ⟨h1, h3, h4, h5⟩
    · rintro ⟨h1, h3, h4, h5⟩
      exact ⟨h1, q, rfl, h3, h4, h5⟩

/-- C2 witness: the column [7, null, 1] — check 6 completes, lists 7 as
invalid, and lists neither the null nor the valid code 1. -/
theorem C2_witness :
    ∃ u iv, check6 [Cell.num 7, Cell.null, Cell.num 1]
        = Except.ok (ContractCheck.result u iv) ∧
      Cell.null ∉ iv ∧
      (∀ q : ℚ, Cell.num q ∈ iv ↔ Cell.num q ∈ [Cell.num 7, Cell.null, Cell.num 1] ∧
        pyInt q ≠ 0 ∧ pyInt q ≠ 1 ∧ pyInt q ≠ 2) :=
  C2_invalid_code_list [Cell.num 7, Cell.null, Cell.num 1] (by decide)

/-- C7 counterexample: a staged file whose contract-code column holds
the text "abc" — `int("abc")` raises, so `validate` raises on a failed
check rather than reporting it. -/
theorem C7_counterexample :
    validate (some dfBadCode) none = Except.error "ValueError" := rfl

/-- C7 (amended): a missing staged file is the only early exit and not a
raise; an unreachable remote store degrades check 4 to a skipped count
while checks 5 and 6 still run and are reported; and validation
completes without raising for every staged content whose contract-code
column holds only numeric or null values — a non-numeric string code,
however, makes check 6 raise. -/
theorem C7_validation_never_raises (staged : Option DFrame) (remote : Option PyVal) :
    (staged = none → validate staged remote = Except.ok VResult.stagedFileMissing) ∧
    (∀ df, staged = some df → contractColOk df = true →
      ∃ r : VReport, validate staged remote = Except.ok (VResult.report r) ∧
        r.supabase_rows = remote.map (fun res => (extractData res).length) ∧
        (remote = none → r.supabase_rows = none) ∧
        r.seg_checks = ["tenure_group", "monthly_charge_segment"].map (fun s =>
          (s, (getColOpt df s).map (fun col =>
            SegInfo.mk (countNulls col) (uniqueFirst (dropNA col))))) ∧
        ((getColOpt df "contract_type_code" = none ∧
          r.contract_check = ContractCheck.colMissing) ∨
         (∃ col, getColOpt df "contract_type_code" = some col ∧
          check6 col = Except.ok r.contract_check))) := by
  refine ⟨fun h => by rw [h]; rfl, fun df hdf hok => ?_⟩
  subst hdf
  unfold contractColOk at hok
  revert hok
  cases hcol : getColOpt df "contract_type_code" with
  | none =>
      intro hok
      refine ⟨buildReport df remote ContractCheck.colMissing,
        ?_, rfl, fun h => by subst h; rfl, rfl, Or.inl ⟨rfl, rfl⟩⟩
      simp only [validate, hcol]
  | some col =>
      intro hok
      obtain ⟨u, iv, hc, -, -⟩ := check6_numOk col hok
      refine ⟨buildReport df remote (ContractCheck.result u iv),
        ?_, rfl, fun h => by subst h; rfl, rfl, Or.inr ⟨col, rfl, by rw [hc]; rfl⟩⟩
      simp only [validate, hcol, hc]

/-- C7 witness: a staged frame with numeric codes and an unreachable
store — validation completes, reports the skipped remote count, the
segment checks, and the contract check. -/
theorem C7_witness :
    ∃ r : VReport, validate (some dfCodes) none = Except.ok (VResult.report r) ∧
      r.supabase_rows = (none : Option PyVal).map (fun res => (extractData res).length) ∧
      ((none : Option PyVal) = none → r.supabase_rows = none) ∧
      r.seg_checks = ["tenure_group", "monthly_charge_segment"].map (fun s =>
        (s, (getColOpt dfCodes s).map (fun col =>
          SegInfo.mk (countNulls col) (uniqueFirst (dropNA col))))) ∧
      ((getColOpt dfCodes "contract_type_code" = none ∧
        r.contract_check = ContractCheck.colMissing) ∨
       (∃ col, getColOpt dfCodes "contract_type_code" = some col ∧
        check6 col = Except.ok r.contract_check)) :=
  (C7_validation_never_raises (some dfCodes) none).2 dfCodes rfl (by decide)

/-- When the `data` attribute is not a list, extraction on a client
object falls through to the `json()` probe. -/
theorem extractData_obj_fallthrough (attrs : List (String × PyVal)) (j : Option PyVal)
    (h1 : ∀ ys, lookupKey "data" attrs ≠ some (PyVal.list ys)) :
    extractData (PyVal.obj attrs j) =
      (match j with
       | some (PyVal.dict kvs) =>
           (match lookupKey "data" kvs with
            | some (PyVal.list xs) => xs
            | _ => [])
       | _ => []) := by
  unfold extractData
  split
  · next xs heq =>
      simp only [getattrData] at heq
      exact absurd heq (h1 _)
  · rfl

/-- C9 counterexample: the sequence `[dict, 5]` is none of the claim's
recognized shapes — it neither contains a list of dicts nor consists of
dicts — yet the extractor returns it whole instead of the empty list,
because only its first element is tested for dict-ness. -/
theorem C9_counterexample :
    claimRecognized (PyVal.list [PyVal.dict [], PyVal.num 5]) = false ∧
    extractData (PyVal.list [PyVal.dict [], PyVal.num 5])
      = [PyVal.dict [], PyVal.num 5] ∧
    ([PyVal.dict [], PyVal.num 5] : List PyVal) ≠ [] :=
  ⟨rfl, rfl, by simp⟩

/-- C9 (amended): the extractor is total and returns the contained
records for every recognized shape — object with a data-list attribute,
dict with a data list, list containing a list of dicts (the first one),
non-empty list whose first element is a dict (returned whole), object
whose `json()` yields a dict with a data list when its data attribute is
not a list — and the empty list for every other value. -/
theorem C9_extractor_shapes :
    (∀ attrs j xs, lookupKey "data" attrs = some (PyVal.list xs) →
      extractData (PyVal.obj attrs j) = xs) ∧
    (∀ kvs xs, lookupKey "data" kvs = some (PyVal.list xs) →
      extractData (PyVal.dict kvs) = xs) ∧
    (∀ xs, (∃ e ∈ xs, isListOfDicts e = true) →
      ∃ ys, extractData (PyVal.list xs) = ys ∧
        PyVal.list ys ∈ xs ∧ ys.all isDict = true) ∧
    (∀ x xs, isDict x = true → (∀ e ∈ x :: xs, isListOfDicts e = false) →
      extractData (PyVal.list (x :: xs)) = x :: xs) ∧
    (∀ attrs kvs xs, (∀ ys, lookupKey "data" attrs ≠ some (PyVal.list ys)) →
      lookupKey "data" kvs = some (PyVal.list xs) →
      extractData (PyVal.obj attrs (some (PyVal.dict kvs))) = xs) ∧
    (∀ res, implRecognized res = false → extractData res = []) := by
  refine ⟨fun attrs j xs h => ?_, fun kvs xs h => ?_, fun xs h => ?_,
    fun x xs hx hno => ?_, fun attrs kvs xs hnl hk => ?_, fun res h => ?_⟩
  · simp [extractData, getattrData, h]
  · simp [extractData, getattrData, h]
  · have hs : (xs.find? isListOfDicts).isSome := by
      rw [List.find?_isSome]
      exact h
    obtain ⟨fd, hfd⟩ := Option.isSome_iff_exists.mp hs
    have hp : isListOfDicts fd = true := List.find?_some hfd
    have hmem : fd ∈ xs := List.mem_of_find?_eq_some hfd
    cases fd with
    | list ys =>
        exact ⟨ys, by simp [extractData, getattrData, hfd], hmem,
          by simpa [isListOfDicts] using hp⟩
    | pyNone => simp [isListOfDicts] at hp
    | num q => simp [isListOfDicts] at hp
    | str s => simp [isListOfDicts] at hp
    | dict kvs => simp [isListOfDicts] at hp
    | obj a j => simp [isListOfDicts] at hp
  · have hfn : (x :: xs).find? isListOfDicts = none :=
      List.find?_eq_none.mpr (fun e he => by simp [hno e he])
    simp [extractData, getattrData, hfn, hx]
  · rw [extractData_obj_fallthrough attrs (some (PyVal.dict kvs)) hnl]
    simp [hk]
  · cases res with
    | pyNone => rfl
    | num q => rfl
    | str s => rfl
    | list xs =>
        simp only [implRecognized, Bool.or_eq_false_iff] at h
        obtain ⟨h1, h2⟩ := h
        have hfn : xs.find? isListOfDicts = none :=
          List.find?_eq_none.mpr (fun e he => by
            rw [List.any_eq_false] at h1
            simp [h1 e he])
        cases xs with
        | nil => rfl
        | cons x rest =>
            simp only at h2
            simp [extractData, getattrData, hfn, h2]
    | dict kvs =>
        simp only [implRecognized, claimRecognized] at h
        cases hk : lookupKey "data" kvs with
        | none => simp [extractData, getattrData, hk]
        | some v =>
            rw [hk] at h
            cases v <;> simp_all [extractData, getattrData]
    | obj attrs j =>
        simp only [implRecognized, claimRecognized, Bool.or_eq_false_iff] at h
        obtain ⟨h1, h2⟩ := h
        have hnl : ∀ ys, lookupKey "data" attrs ≠ some (PyVal.list ys) := by
          intro ys hys
          rw [hys] at h1
          exact absurd h1 (by simp)
        rw [extractData_obj_fallthrough attrs j hnl]
        cases j with
        | none => rfl
        | some jv =>
            cases jv with
            | dict kvs =>
                simp only at h2
                cases hk : lookupKey "data" kvs with
                | none => simp [hk]
                | some v =>
                    rw [hk] at h2
                    cases v <;> simp_all
            | pyNone => rfl
            | num q => rfl
            | str s => rfl
            | list ys => rfl
            | obj a2 j2 => rfl

/-- C9 witness: each recognized shape evaluated at a concrete response,
plus a malformed response mapping to the empty list. -/
theorem C9_witness :
    extractData (PyVal.obj [("data", PyVal.list [PyVal.num 1])] none) = [PyVal.num 1] ∧
    extractData (PyVal.dict [("data", PyVal.list [])]) = [] ∧
    (∃ ys, extractData (PyVal.list [PyVal.num 3, PyVal.list [PyVal.dict []]]) = ys ∧
      PyVal.list ys ∈ [PyVal.num 3, PyVal.list [PyVal.dict []]] ∧ ys.all isDict = true) ∧
    extractData (PyVal.list [PyVal.dict [("id", PyVal.num 1)]])
      = [PyVal.dict [("id", PyVal.num 1)]] ∧
    extractData (PyVal.obj [] (some (PyVal.dict [("data", PyVal.list [PyVal.num 7])])))
      = [PyVal.num 7] ∧
    extractData (PyVal.str "oops") = [] :=
  ⟨C9_extractor_shapes.1 _ none _ rfl,
   C9_extractor_shapes.2.1 _ _ rfl,
   C9_extractor_shapes.2.2.1 _
     ⟨PyVal.list [PyVal.dict []],
      List.mem_cons_of_mem _ (List.mem_cons_self _ _), rfl⟩,
   C9_extractor_shapes.2.2.2.1 _ _ rfl
     (fun e he => by
       rcases List.mem_singleton.mp he with rfl
       rfl),
   C9_extractor_shapes.2.2.2.2.1 _ _ _ (fun ys h => nomatch h) rfl,
   C9_extractor_shapes.2.2.2.2.2 _ rfl⟩

end ETL
